import Mathlib

/-!
Verification of the request-body and response-body transport core of the
conjure-go-runtime HTTP client (conjure-go-client/httpclient: body_types.go
and body_handler.go), as a shallow embedding.

Modelling conventions:
  * a byte sequence is a `List Nat`;
  * a Go `io.ReadCloser` interface value is `Option Bytes`: `none` is the nil
    interface value, `some bs` is a reader that yields exactly the bytes `bs`
    (http.NoBody is the non-nil empty reader `some []`);
  * Go runtime panics (calling a nil function value) are the `panicked`
    constructor of `Outcome`;
  * observable effects (buffer-pool checkout and return, encoder invocation,
    handing the request to the next transport stage, decoder invocation) are
    recorded as an event trace `List Ev`, in the order the source performs
    them;
  * caller-supplied stream factories are modelled as deterministic (each
    invocation returns the same result), which suffices for the properties
    treated here;
  * the `*bytes.Buffer`, `*bytes.Reader` and `*strings.Reader` inputs of
    RequestBodyInMemory are modelled by the sequence of unread bytes the
    pointed-to value holds; since the source dereferences the captured
    pointer inside the returned closure, the contents of the referent at
    invocation time are passed to the closure model as an explicit argument.
-/

namespace ConjureBody

/-- A byte sequence. -/
abbrev Bytes := List Nat

/-- Error values, by their message. -/
abbrev Err := String

/-- A Go io.ReadCloser interface value: none is nil, some bs yields bs. -/
abbrev ReadCloser := Option Bytes

/-- Observable effects of one exchange, in source order. -/
inductive Ev where
  | poolGet
  | poolPut
  | encode
  | transport
  | decode
deriving DecidableEq

/-- The GetBody field of an http.Request: the k-th invocation returns a fresh
reader and an error, mirroring func() (io.ReadCloser, error). -/
abbrev GetBody := Nat → ReadCloser × Option Err

/-- Result of running a piece of Go code that can also panic at runtime. -/
inductive Outcome (α : Type) where
  | ok (a : α)
  | panicked (msg : String)
deriving DecidableEq

/-- The message of the Go runtime panic raised by calling a nil function. -/
def nilFuncPanicMsg : Err := "runtime error: invalid memory address or nil pointer dereference"

/-- The quadruple returned by a requestBodyFunc invocation: length, body
reader, optional replay function, error (body_types.go line 37). -/
structure BodyFuncResult where
  contentLen : Int
  body : ReadCloser
  getBody : Option GetBody
  err : Option Err

/-- The fields of an *http.Request that this core reads and writes. -/
structure HRequest where
  contentLength : Int
  body : ReadCloser
  getBody : Option GetBody

/-- requestBodyFunc (body_types.go line 37): the k-th invocation yields the
events it performs and its result quadruple, or a panic. -/
structure requestBodyFunc where
  fn : Nat → Outcome (List Ev × BodyFuncResult)

/-- requestBodyFunc.setRequestBody (body_types.go lines 39-51): invoke the
function; on error return it with the request untouched; a nil body is
normalized to http.NoBody with zero length and nil GetBody; then the three
request fields are assigned. -/
def requestBodyFunc.setRequestBody (f : requestBodyFunc) (k : Nat) (req : HRequest) :
    Outcome (List Ev × HRequest × Option Err) :=
  match f.fn k with
  | .panicked m => .panicked m
  | .ok (evs, r) =>
    match r.err with
    | some e => .ok (evs, req, some e)
    | none =>
      match r.body with
      | none =>
          .ok (evs, { req with contentLength := 0, body := some [], getBody := none }, none)
      | some bs =>
          .ok (evs, { req with contentLength := r.contentLen, body := some bs,
                               getBody := r.getBody }, none)

/-- The RequestBody interface. A value is either a plain requestBodyFunc or
one wrapped in the noRetriesRequestBody marker struct (body_types.go
lines 90-93), which exists so the middleware can recognize single-use
bodies by a dynamic type check. -/
inductive RequestBody where
  | plain (f : requestBodyFunc)
  | noRetries (f : requestBodyFunc)

/-- The underlying requestBodyFunc of a RequestBody value. -/
def RequestBody.fn : RequestBody → requestBodyFunc
  | .plain f => f
  | .noRetries f => f

/-- Whether the dynamic type of a RequestBody value is noRetriesRequestBody. -/
def RequestBody.isNoRetries : RequestBody → Bool
  | .noRetries _ => true
  | .plain _ => false

/-- Dispatch of the RequestBody interface method setRequestBody. -/
def RequestBody.setRequestBody (rb : RequestBody) (k : Nat) (req : HRequest) :
    Outcome (List Ev × HRequest × Option Err) :=
  rb.fn.setRequestBody k req

/-- RequestBodyEmpty (body_types.go lines 54-58): returns 0, http.NoBody,
nil, nil. -/
def RequestBodyEmpty : RequestBody :=
  .plain ⟨fun _ => .ok ([], ⟨0, some [], none, none⟩)⟩

/-- contentLengthInMemory (body_types.go lines 79-88): 0 for a nil pointer,
else the Len() of the pointed-to buffer or reader, which is the number of
unread bytes it holds. -/
def contentLengthInMemory (cur : Option Bytes) : Int :=
  match cur with
  | none => 0
  | some bs => (bs.length : Int)

/-- The closure returned by RequestBodyInMemory (body_types.go lines 62-76).
The source captures the input pointer and dereferences it inside this
closure, so `cur` is the contents of the referent at invocation time, not at
construction time. A non-nil referent is snapshotted by value here: the
length, the first body and every GetBody result are all built from that
snapshot. -/
def requestBodyInMemoryFn (cur : Option Bytes) : Outcome (List Ev × BodyFuncResult) :=
  match cur with
  | none => .ok ([], ⟨0, none, none, none⟩)
  | some bs =>
      .ok ([], ⟨contentLengthInMemory (some bs), some bs,
                some (fun _ => ((some bs : ReadCloser), (none : Option Err))), none⟩)

/-- RequestBodyInMemory (body_types.go lines 62-76), wrapped as a
RequestBody. `cur` is the referent of the captured pointer at
materialization time (see requestBodyInMemoryFn). -/
def RequestBodyInMemory (cur : Option Bytes) : RequestBody :=
  .plain ⟨fun _ => requestBodyInMemoryFn cur⟩

/-- A value of the generic parameter T of RequestBodyStreamOnce and
RequestBodyStreamWithReplay: one of the three accepted function types, where
the inner `none` is a typed nil function value. Factories are modelled as
deterministic. -/
inductive StreamInput where
  | rc (f : Option ReadCloser)
  | rce (f : Option (ReadCloser × Option Err))
  | rcle (f : Option (ReadCloser × Int × Option Err))

/-- The dynamic value of the interface conversion any(input) that the type
switch in the stream constructors inspects. `ifaceNil` is the nil interface
value (the `case nil` arm); `other` is a value of a dynamic type outside the
three accepted shapes (the `default` arm), carrying its type name. -/
inductive FactoryVal where
  | ifaceNil
  | fRC (f : Option ReadCloser)
  | fRCE (f : Option (ReadCloser × Option Err))
  | fRCLE (f : Option (ReadCloser × Int × Option Err))
  | other (typeName : String)

/-- Go interface conversion any(input) for a value of the generic type T: a
typed nil function value boxes to a non-nil interface holding a nil function,
never to the nil interface value. -/
def box : StreamInput → FactoryVal
  | .rc f => .fRC f
  | .rce f => .fRCE f
  | .rcle f => .fRCLE f

/-- RequestBodyStreamOnce (body_types.go lines 111-129): tagged
noRetriesRequestBody; the type switch runs inside the returned closure, so
each invocation re-inspects the boxed factory. Every arm leaves the GetBody
replay function nil. Calling a nil function value panics. -/
def RequestBodyStreamOnce (v : FactoryVal) : RequestBody :=
  .noRetries ⟨fun _ =>
    match v with
    | .other t =>
        .ok ([], ⟨0, none, none,
                  some ("httpclient.RequestBodyStreamOnce: unexpected type " ++ t)⟩)
    | .ifaceNil => .ok ([], ⟨0, none, none, none⟩)
    | .fRC none => .panicked nilFuncPanicMsg
    | .fRC (some r) => .ok ([], ⟨-1, r, none, none⟩)
    | .fRCE none => .panicked nilFuncPanicMsg
    | .fRCE (some (r, e)) => .ok ([], ⟨-1, r, none, e⟩)
    | .fRCLE none => .panicked nilFuncPanicMsg
    | .fRCLE (some (r, len, e)) => .ok ([], ⟨len, r, none, e⟩)⟩

/-- RequestBodyStreamWithReplay (body_types.go lines 142-168): a plain
requestBodyFunc whose GetBody re-invokes the same factory (deterministic
model: each replay returns the factory result again). -/
def RequestBodyStreamWithReplay (v : FactoryVal) : RequestBody :=
  .plain ⟨fun _ =>
    match v with
    | .other t =>
        .ok ([], ⟨0, none, none,
                  some ("httpclient.RequestBodyStreamWithReplay: unexpected type " ++ t)⟩)
    | .ifaceNil => .ok ([], ⟨0, none, none, none⟩)
    | .fRC none => .panicked nilFuncPanicMsg
    | .fRC (some r) =>
        .ok ([], ⟨-1, r, some (fun _ => (r, (none : Option Err))), none⟩)
    | .fRCE none => .panicked nilFuncPanicMsg
    | .fRCE (some (r, e)) => .ok ([], ⟨-1, r, some (fun _ => (r, e)), e⟩)
    | .fRCLE none => .panicked nilFuncPanicMsg
    | .fRCLE (some (r, len, e)) => .ok ([], ⟨len, r, some (fun _ => (r, e)), e⟩)⟩

/-- The dynamic value held by bodyMiddleware.requestInput when it is not
nil: either a RequestBody value, or some other value (tagged with its Go
type name), which only an encoder can turn into a body. -/
inductive InputVal where
  | body (rb : RequestBody)
  | value (tag : String)

/-- A codecs.Encoder: serializes a value to bytes or fails. Marshal and the
writer-targeted Encode produce the same serialization; Encode appends it to
the buffer it is given. -/
structure Encoder where
  encode : InputVal → Except Err Bytes

/-- RequestBodyEncoderObject (body_types.go lines 171-183): invoke
encoder.Marshal once per materialization; the stream and every GetBody
result re-wrap the resulting owned bytes without re-invoking the encoder. -/
def RequestBodyEncoderObject (input : InputVal) (enc : Encoder) : RequestBody :=
  .plain ⟨fun _ =>
    match enc.encode input with
    | .error e => .ok ([Ev.encode], ⟨0, none, none, some e⟩)
    | .ok raw =>
        .ok ([Ev.encode],
             ⟨(raw.length : Int), some raw,
              some (fun _ => ((some raw : ReadCloser), (none : Option Err))), none⟩)⟩

/-- RequestBodyEncoderObjectBuffer (body_types.go lines 186-199): like
RequestBodyEncoderObject but encoder.Encode writes into the provided buffer;
raw is then the full contents of that buffer. -/
def RequestBodyEncoderObjectBuffer (input : InputVal) (enc : Encoder) (buf : Bytes) :
    RequestBody :=
  .plain ⟨fun _ =>
    match enc.encode input with
    | .error e => .ok ([Ev.encode], ⟨0, none, none, some e⟩)
    | .ok encoded =>
        .ok ([Ev.encode],
             ⟨((buf ++ encoded).length : Int), some (buf ++ encoded),
              some (fun _ => ((some (buf ++ encoded) : ReadCloser), (none : Option Err))),
              none⟩)⟩

/-- A codecs.Decoder: decodes response bytes into the output target,
returning the decode error if any. -/
structure Decoder where
  decode : Bytes → Option Err

/-- A bytesbuffers.Pool: Get hands out a buffer with these contents (a fresh
pool hands out empty buffers). -/
structure Pool where
  buf : Bytes

/-- bodyMiddleware (body_handler.go lines 26-37). responseOutput only
matters through being nil or not. -/
structure bodyMiddleware where
  requestInput : Option InputVal
  requestEncoder : Option Encoder
  rawOutput : Bool
  responseOutput : Option Unit
  responseDecoder : Decoder
  bufferPool : Option Pool

/-- The configuration error of body_handler.go line 79. -/
def requestEncoderNilErr : Err := "requestEncoder is nil but requestInput is not RequestBody"

/-- What bodyMiddleware.setRequestBody returns: the events it performed, the
cleanup function it hands back (as the events running it will emit; none is
the nil function returned on the configuration-error branch), the request
after mutation, and the error. -/
structure SetBodyResult where
  events : List Ev
  cleanup : Option (List Ev)
  req : HRequest
  err : Option Err

/-- The tail of bodyMiddleware.setRequestBody (body_handler.go line 83):
return cleanup together with requestBody.setRequestBody(req). `pre` is the
events already performed while selecting the body (the pool checkout). -/
def attachBody (pre : List Ev) (cl : Option (List Ev)) (rb : RequestBody) (k : Nat)
    (req : HRequest) : Outcome SetBodyResult :=
  match rb.setRequestBody k req with
  | .panicked m => .panicked m
  | .ok (evs, req2, err) => .ok ⟨pre ++ evs, cl, req2, err⟩

/-- bodyMiddleware.setRequestBody (body_handler.go lines 56-84): nil input
uses the empty body; else a configured encoder wins (with the pool when one
is set, producing the buffer-returning cleanup); else a requestInput that is
itself a RequestBody is used directly; else the configuration error is
returned with a nil cleanup. -/
def bodyMiddleware.setRequestBody (b : bodyMiddleware) (k : Nat) (req : HRequest) :
    Outcome SetBodyResult :=
  match b.requestInput with
  | none => attachBody [] (some []) RequestBodyEmpty k req
  | some input =>
    match b.requestEncoder with
    | some enc =>
      match b.bufferPool with
      | some pool =>
          attachBody [Ev.poolGet] (some [Ev.poolPut])
            (RequestBodyEncoderObjectBuffer input enc pool.buf) k req
      | none => attachBody [] (some []) (RequestBodyEncoderObject input enc) k req
    | none =>
      match input with
      | .body rb => attachBody [] (some []) rb k req
      | .value _ => .ok ⟨[], none, req, some requestEncoderNilErr⟩

/-- bodyMiddleware.noRetriesRequestBody (body_handler.go lines 86-93): true
exactly when the encoder is nil, the input is non-nil, and the input has
dynamic type noRetriesRequestBody. -/
def bodyMiddleware.noRetriesRequestBody (b : bodyMiddleware) : Bool :=
  match b.requestEncoder, b.requestInput with
  | none, some (.body (.noRetries _)) => true
  | _, _ => false

/-- The fields of an *http.Response that this core reads. -/
structure HResponse where
  body : Option Bytes
  contentLength : Int
deriving DecidableEq

/-- bodyMiddleware.readResponse (body_handler.go lines 95-117), returning
the events it performed (a decoder invocation or nothing) and its error. -/
def bodyMiddleware.readResponse (b : bodyMiddleware) (resp : Option HResponse)
    (respErr : Option Err) : List Ev × Option Err :=
  if b.rawOutput ∧ respErr = none then ([], none)
  else
    match respErr with
    | some e => ([], some e)
    | none =>
      match b.responseOutput with
      | none => ([], none)
      | some _ =>
        match resp with
        | none => ([], none)
        | some r =>
          match r.body with
          | none => ([], none)
          | some bs =>
            if r.contentLength = 0 then ([], none)
            else ([Ev.decode], b.responseDecoder.decode bs)

/-- What one RoundTrip yields: its event trace, the response, the error. -/
structure RTResult where
  events : List Ev
  resp : Option HResponse
  err : Option Err
deriving DecidableEq

/-- bodyMiddleware.RoundTrip (body_handler.go lines 39-53): set the request
body (returning early, without running cleanup, if that fails), hand the
request to the next transport stage, run cleanup, then read the response;
a readResponse error makes the exchange fail with a nil response. `next` is
the wrapped transport stage. -/
def bodyMiddleware.RoundTrip (b : bodyMiddleware) (k : Nat) (req : HRequest)
    (next : HRequest → Option HResponse × Option Err) : Outcome RTResult :=
  match b.setRequestBody k req with
  | .panicked m => .panicked m
  | .ok sbr =>
    match sbr.err with
    | some e => .ok ⟨sbr.events, none, some e⟩
    | none =>
      match sbr.cleanup with
      | none => .panicked nilFuncPanicMsg
      | some cl =>
        match b.readResponse (next sbr.req).1 (next sbr.req).2 with
        | (devs, some e) => .ok ⟨sbr.events ++ [Ev.transport] ++ cl ++ devs, none, some e⟩
        | (devs, none) =>
            .ok ⟨sbr.events ++ [Ev.transport] ++ cl ++ devs, (next sbr.req).1, none⟩

/-- The content length a body function reports, when it returns at all. -/
def materializedLen : Outcome (List Ev × BodyFuncResult) → Option Int
  | .ok (_, r) => some r.contentLen
  | .panicked _ => none

/-- A fresh request, as the middleware receives it. -/
def req0 : HRequest := ⟨0, none, none⟩

/-- An encoder that always fails. -/
def encFailing : Encoder := ⟨fun _ => .error "encode failed"⟩

/-- An encoder that always produces the single byte 7. -/
def encConst7 : Encoder := ⟨fun _ => .ok [7]⟩

/-- An encoder that always produces the bytes 1, 2. -/
def encConst12 : Encoder := ⟨fun _ => .ok [1, 2]⟩

/-- A decoder that always succeeds. -/
def decOk : Decoder := ⟨fun _ => none⟩

/-- A decoder that always fails with "bad". -/
def decBad : Decoder := ⟨fun _ => some "bad"⟩

/-- A fresh pool handing out empty buffers. -/
def poolEmpty : Pool := ⟨[]⟩

/-- A transport stage returning neither response nor error. -/
def nextNone : HRequest → Option HResponse × Option Err := fun _ => (none, none)

/-- A transport stage returning a one-byte response of content length 5. -/
def nextResp : HRequest → Option HResponse × Option Err :=
  fun _ => (some ⟨some [1], 5⟩, none)

/-- A middleware configured with a pool and a failing encoder. -/
def bmEncodeFail : bodyMiddleware :=
  ⟨some (.value "obj"), some encFailing, false, none, decOk, some poolEmpty⟩

/-- A middleware with no request body, an output target, and a failing
decoder. -/
def bmDecodeBad : bodyMiddleware := ⟨none, none, false, some (), decBad, none⟩

/-- A body function that returns a nil body together with a nonzero length
and a replay function, and no error. -/
def rbfNilBody : requestBodyFunc :=
  ⟨fun _ => .ok ([], ⟨55, none,
                      some (fun _ => ((some [9] : ReadCloser), (none : Option Err))), none⟩)⟩

/-- A body function that returns a non-nil body together with an error. -/
def rbfErr : requestBodyFunc := ⟨fun _ => .ok ([], ⟨-1, some [3], none, some "boom"⟩)⟩

/-- Helper: readResponse performs either no event or exactly one decoder
invocation. -/
theorem readResponse_events (b : bodyMiddleware) (resp : Option HResponse)
    (respErr : Option Err) :
    (b.readResponse resp respErr).1 = [] ∨ (b.readResponse resp respErr).1 = [Ev.decode] := by
  unfold bodyMiddleware.readResponse
  repeat' split
  all_goals simp

/-- Helper: once setRequestBody has succeeded with a non-nil cleanup,
RoundTrip runs the transport, then the cleanup, then at most one decoder
invocation, in that order, whatever the transport and decoder do. -/
theorem roundTrip_of_setBody (b : bodyMiddleware) (k : Nat) (req : HRequest)
    (next : HRequest → Option HResponse × Option Err) (evs cl : List Ev) (req2 : HRequest)
    (h : b.setRequestBody k req = .ok ⟨evs, some cl, req2, none⟩) :
    ∃ res ds, b.RoundTrip k req next = .ok res ∧ (ds = [] ∨ ds = [Ev.decode]) ∧
      res.events = evs ++ [Ev.transport] ++ cl ++ ds := by
  have hds := readResponse_events b (next req2).1 (next req2).2
  simp only [bodyMiddleware.RoundTrip, h]
  rcases hrr : b.readResponse (next req2).1 (next req2).2 with ⟨devs, derr⟩
  rw [hrr] at hds
  simp only at hds
  cases derr with
  | some e => exact ⟨_, devs, rfl, hds, rfl⟩
  | none => exact ⟨_, devs, rfl, hds, rfl⟩

/-- Helper: on the encoder-with-pool path, a successful encoding makes
setRequestBody succeed with the trace poolGet then encode and the
buffer-returning cleanup. -/
theorem setBody_pool_ok (input : InputVal) (enc : Encoder) (pool : Pool) (raw : Bool)
    (out : Option Unit) (dec : Decoder) (k : Nat) (req : HRequest) (bs : Bytes)
    (h : enc.encode input = .ok bs) :
    bodyMiddleware.setRequestBody ⟨some input, some enc, raw, out, dec, some pool⟩ k req
      = .ok ⟨[Ev.poolGet, Ev.encode], some [Ev.poolPut],
             { req with contentLength := ((pool.buf ++ bs).length : Int),
                        body := some (pool.buf ++ bs),
                        getBody := some (fun _ =>
                          ((some (pool.buf ++ bs) : ReadCloser), (none : Option Err))) },
             none⟩ := by
  simp only [bodyMiddleware.setRequestBody, attachBody, RequestBody.setRequestBody,
    RequestBody.fn, RequestBodyEncoderObjectBuffer, requestBodyFunc.setRequestBody, h]
  rfl

/-- Helper: on the encoder-with-pool path, a failed encoding makes
setRequestBody return the encoder error with the trace poolGet then encode,
the request untouched, and the buffer-returning cleanup handed back. -/
theorem setBody_pool_err (input : InputVal) (enc : Encoder) (pool : Pool) (raw : Bool)
    (out : Option Unit) (dec : Decoder) (k : Nat) (req : HRequest) (e : Err)
    (h : enc.encode input = .error e) :
    bodyMiddleware.setRequestBody ⟨some input, some enc, raw, out, dec, some pool⟩ k req
      = .ok ⟨[Ev.poolGet, Ev.encode], some [Ev.poolPut], req, some e⟩ := by
  simp only [bodyMiddleware.setRequestBody, attachBody, RequestBody.setRequestBody,
    RequestBody.fn, RequestBodyEncoderObjectBuffer, requestBodyFunc.setRequestBody, h]
  rfl

/-- Claim C1, counterexample: the claim says the cleanup produced by
setRequestBody (the buffer return, when a pool is configured) runs exactly
once on every exit path, including when request-body construction itself
fails. With a pool configured and an encoder that fails, RoundTrip takes
the early-return branch before the cleanup call: the trace shows the pool
checkout but no pool return, so the cleanup ran zero times, not once. -/
theorem c1_cleanup_counterexample :
    bodyMiddleware.RoundTrip bmEncodeFail 0 req0 nextNone
      = .ok ⟨[Ev.poolGet, Ev.encode], none, some "encode failed"⟩ ∧
    ([Ev.poolGet, Ev.encode] : List Ev).count Ev.poolPut = 0 ∧
    ([Ev.poolGet, Ev.encode] : List Ev).count Ev.poolGet = 1 :=
  ⟨rfl, by decide, by decide⟩

/-- Claim C1 (corrected): on every exit path on which setRequestBody itself
succeeds, the pool-return cleanup runs exactly once, after the transport
stage returns and before RoundTrip returns, whatever the transport and the
response handling do (success, transport error, or decode failure); but
when request-body construction fails (the encoder returns an error),
RoundTrip returns that error without running the cleanup, so the checked-out
buffer is not returned to the pool on that path. -/
theorem c1_cleanup_after_transport (input : InputVal) (enc : Encoder) (pool : Pool)
    (raw : Bool) (out : Option Unit) (dec : Decoder) (k : Nat) (req : HRequest)
    (next : HRequest → Option HResponse × Option Err) :
    (∀ bs, enc.encode input = .ok bs →
      ∃ res ds,
        bodyMiddleware.RoundTrip ⟨some input, some enc, raw, out, dec, some pool⟩ k req next
          = .ok res ∧
        (ds = [] ∨ ds = [Ev.decode]) ∧
        res.events = [Ev.poolGet, Ev.encode, Ev.transport, Ev.poolPut] ++ ds ∧
        res.events.count Ev.poolPut = 1) ∧
    (∀ e, enc.encode input = .error e →
      bodyMiddleware.RoundTrip ⟨some input, some enc, raw, out, dec, some pool⟩ k req next
        = .ok ⟨[Ev.poolGet, Ev.encode], none, some e⟩ ∧
      ([Ev.poolGet, Ev.encode] : List Ev).count Ev.poolPut = 0) := by
  constructor
  · intro bs h
    obtain ⟨res, ds, hrt, hds, hevs⟩ :=
      roundTrip_of_setBody ⟨some input, some enc, raw, out, dec, some pool⟩ k req next
        [Ev.poolGet, Ev.encode] [Ev.poolPut] _
        (setBody_pool_ok input enc pool raw out dec k req bs h)
    refine ⟨res, ds, hrt, hds, ?_, ?_⟩
    · rw [hevs]
      rfl
    · rw [hevs]
      rcases hds with h2 | h2 <;> rw [h2] <;> decide
  · intro e h
    refine ⟨?_, by decide⟩
    simp only [bodyMiddleware.RoundTrip, setBody_pool_err input enc pool raw out dec k req e h]

/-- Claim C1, witness: a concrete successful exchange through a pool and a
constant encoder shows the trace poolGet, encode, transport, poolPut
followed by at most one decode, with the pool return occurring exactly
once. -/
theorem c1_cleanup_witness :
    ∃ res ds,
      bodyMiddleware.RoundTrip
          ⟨some (.value "w"), some encConst7, false, none, decOk, some poolEmpty⟩
          0 req0 nextResp = .ok res ∧
      (ds = [] ∨ ds = [Ev.decode]) ∧
      res.events = [Ev.poolGet, Ev.encode, Ev.transport, Ev.poolPut] ++ ds ∧
      res.events.count Ev.poolPut = 1 :=
  (c1_cleanup_after_transport (.value "w") encConst7 poolEmpty false none decOk 0 req0
    nextResp).1 [7] rfl

/-- Claim C2 (confirmed): bodyMiddleware.setRequestBody selects the body in
this order: nil requestInput takes the empty body even when an encoder is
configured; else a configured encoder produces the encoder body (pooled
buffer variant when a pool is configured, with the pool checkout performed
and the buffer-return cleanup handed back, else the unpooled variant); else
a requestInput that is itself a RequestBody is used directly; else
setRequestBody returns the configuration error and RoundTrip returns it
with an event trace that contains no transport event, for every transport
stage. -/
theorem c2_body_selection_order (enc : Encoder) (pool : Pool) (input : InputVal)
    (rb : RequestBody) (tag : String) (encOpt : Option Encoder) (poolOpt : Option Pool)
    (raw : Bool) (out : Option Unit) (dec : Decoder) (k : Nat) (req : HRequest)
    (next : HRequest → Option HResponse × Option Err) :
    (bodyMiddleware.setRequestBody ⟨none, encOpt, raw, out, dec, poolOpt⟩ k req
       = attachBody [] (some []) RequestBodyEmpty k req) ∧
    (bodyMiddleware.setRequestBody ⟨some input, some enc, raw, out, dec, some pool⟩ k req
       = attachBody [Ev.poolGet] (some [Ev.poolPut])
           (RequestBodyEncoderObjectBuffer input enc pool.buf) k req) ∧
    (bodyMiddleware.setRequestBody ⟨some input, some enc, raw, out, dec, none⟩ k req
       = attachBody [] (some []) (RequestBodyEncoderObject input enc) k req) ∧
    (bodyMiddleware.setRequestBody ⟨some (.body rb), none, raw, out, dec, poolOpt⟩ k req
       = attachBody [] (some []) rb k req) ∧
    (bodyMiddleware.setRequestBody ⟨some (.value tag), none, raw, out, dec, poolOpt⟩ k req
       = .ok ⟨[], none, req, some requestEncoderNilErr⟩) ∧
    (bodyMiddleware.RoundTrip ⟨some (.value tag), none, raw, out, dec, poolOpt⟩ k req next
       = .ok ⟨[], none, some requestEncoderNilErr⟩) :=
  ⟨rfl, rfl, rfl, rfl, rfl, rfl⟩

/-- Claim C4, counterexample: the claim says the buffer contents and length
are snapshotted at construction time, before the RequestBody is returned,
so that mutation of the source buffer after construction cannot change the
reported length. In the source the snapshot and the length computation sit
inside the closure that the constructor returns, which dereferences the
captured pointer only when the body is materialized: the same RequestBody,
constructed while the buffer held the single byte 104 and materialized
after a second byte 105 was appended, reports length 2 (the materialization
time length), not the construction-time length 1. -/
theorem c4_snapshot_counterexample :
    materializedLen (requestBodyInMemoryFn (some [104])) = some 1 ∧
    materializedLen (requestBodyInMemoryFn (some [104, 105])) = some 2 ∧
    (materializedLen (requestBodyInMemoryFn (some [104, 105]))
       == materializedLen (requestBodyInMemoryFn (some [104]))) = false := by
  exact ⟨rfl, rfl, rfl⟩

/-- Claim C4 (corrected): RequestBodyInMemory snapshots the buffer contents
and computes the length at materialization time, when the body function is
invoked via setRequestBody, not at construction time: the materialization
result is fully determined by the referent contents at that moment, the
length is contentLengthInMemory of those contents, and the stream, the
replay function and the reported length are all built from the snapshot
taken then, so mutation of the source buffer after materialization cannot
change the bytes produced or replayed. A nil pointer yields the nil-body
result. -/
theorem c4_snapshot_at_materialization (bs : Bytes) :
    requestBodyInMemoryFn (some bs)
      = .ok ([], ⟨(bs.length : Int), some bs,
                  some (fun _ => ((some bs : ReadCloser), (none : Option Err))), none⟩) ∧
    requestBodyInMemoryFn none = .ok ([], ⟨0, none, none, none⟩) ∧
    contentLengthInMemory (some bs) = (bs.length : Int) ∧
    contentLengthInMemory none = 0 :=
  ⟨rfl, rfl, rfl, rfl⟩

/-- Claim C5, counterexample: the claim says a payload factory outside the
three recognized shapes makes the unexpected-type error surface at
construction time, before the RequestBody is returned. Constructing over a
value of the unrecognized dynamic type chan int returns a RequestBody with
no error (the constructor cannot fail: its only return value is the
RequestBody), and the unexpected-type error appears only when that body is
materialized by setRequestBody, which leaves the request untouched. -/
theorem c5_unexpected_type_counterexample :
    (RequestBodyStreamOnce (.other "chan int")).setRequestBody 0 req0
      = .ok ([], req0, some "httpclient.RequestBodyStreamOnce: unexpected type chan int") ∧
    (RequestBodyStreamOnce (.other "chan int")).isNoRetries = true := by
  exact ⟨rfl, rfl⟩

/-- Claim C5 (corrected): for a payload factory whose dynamic type is not
one of the three recognized shapes, RequestBodyStreamOnce and
RequestBodyStreamWithReplay construct and return a RequestBody without any
error; the unexpected-type error is produced at materialization time, on
every invocation of setRequestBody, which then returns it and leaves the
request unmodified. (The Go generic constraint makes such an argument
impossible to pass at compile time; the type-switch default arm that
produces this error is defensive.) -/
theorem c5_unexpected_type_at_materialization (t : String) (k : Nat) (req : HRequest) :
    (RequestBodyStreamOnce (.other t)).setRequestBody k req
      = .ok ([], req, some ("httpclient.RequestBodyStreamOnce: unexpected type " ++ t)) ∧
    (RequestBodyStreamWithReplay (.other t)).setRequestBody k req
      = .ok ([], req, some ("httpclient.RequestBodyStreamWithReplay: unexpected type " ++ t)) :=
  ⟨rfl, rfl⟩

/-- Claim C6 (code bug): a nil factory value of any of the three accepted
function types boxes, under the Go interface conversion any(input), into a
non-nil interface holding a nil function value, so the type switch selects
the matching function-type arm and calls the nil function: materializing
the resulting RequestBody panics instead of producing the Empty body. The
`case nil` arm, which would produce the Empty body as the claim and the
spec describe, is only reached by the nil interface value, which `box`
never produces. -/
theorem c6_nil_factory_panics :
    box (.rc none) = FactoryVal.fRC none ∧
    box (.rce none) = FactoryVal.fRCE none ∧
    box (.rcle none) = FactoryVal.fRCLE none ∧
    (RequestBodyStreamOnce (box (.rc none))).setRequestBody 0 req0 = .panicked nilFuncPanicMsg ∧
    (RequestBodyStreamOnce (box (.rce none))).setRequestBody 0 req0 = .panicked nilFuncPanicMsg ∧
    (RequestBodyStreamOnce (box (.rcle none))).setRequestBody 0 req0 = .panicked nilFuncPanicMsg ∧
    (RequestBodyStreamWithReplay (box (.rc none))).setRequestBody 0 req0
      = .panicked nilFuncPanicMsg ∧
    (RequestBodyStreamWithReplay (box (.rce none))).setRequestBody 0 req0
      = .panicked nilFuncPanicMsg ∧
    (RequestBodyStreamWithReplay (box (.rcle none))).setRequestBody 0 req0
      = .panicked nilFuncPanicMsg ∧
    (RequestBodyStreamOnce FactoryVal.ifaceNil).setRequestBody 0 req0
      = .ok ([], { req0 with contentLength := 0, body := some [], getBody := none }, none) := by
  exact ⟨rfl, rfl, rfl, rfl, rfl, rfl, rfl, rfl, rfl, rfl⟩

/-- Claim C7 (confirmed): for an in-memory payload of N unread bytes,
RequestBodyInMemory reports content length N, sets the request body stream
to exactly those N bytes, and installs a replay function every invocation
of which yields the same N bytes with no error. -/
theorem c7_inMemory_length_and_replay (bs : Bytes) (k : Nat) (req : HRequest) :
    contentLengthInMemory (some bs) = (bs.length : Int) ∧
    ∃ gb, (RequestBodyInMemory (some bs)).setRequestBody k req
        = .ok ([], { req with contentLength := (bs.length : Int), body := some bs,
                              getBody := some gb }, none) ∧
      ∀ j, gb j = ((some bs : ReadCloser), (none : Option Err)) :=
  ⟨rfl, fun _ => ((some bs : ReadCloser), (none : Option Err)), rfl, fun _ => rfl⟩

/-- Claim C3 (confirmed): readResponse evaluates in this order: raw output
with no transport error returns the response untouched with no decoder
invocation and no error; else a transport error is propagated undecoded;
else a nil output target, nil response, nil response body, or content
length exactly 0 skips decoding with no error; otherwise the decoder runs
and its result is the result of readResponse, and a decode error makes
RoundTrip fail with a nil response carrying that error. -/
theorem c3_readResponse_order (inp : Option InputVal) (encO : Option Encoder)
    (out : Option Unit) (dec : Decoder) (pool : Option Pool) :
    (∀ resp, bodyMiddleware.readResponse ⟨inp, encO, true, out, dec, pool⟩ resp none
       = ([], none)) ∧
    (∀ (b : bodyMiddleware) (resp : Option HResponse) (e : Err),
       b.readResponse resp (some e) = ([], some e)) ∧
    (∀ raw resp, bodyMiddleware.readResponse ⟨inp, encO, raw, none, dec, pool⟩ resp none
       = ([], none)) ∧
    (∀ raw, bodyMiddleware.readResponse ⟨inp, encO, raw, out, dec, pool⟩ none none
       = ([], none)) ∧
    (∀ raw cl, bodyMiddleware.readResponse ⟨inp, encO, raw, out, dec, pool⟩
       (some ⟨none, cl⟩) none = ([], none)) ∧
    (∀ raw bs, bodyMiddleware.readResponse ⟨inp, encO, raw, out, dec, pool⟩
       (some ⟨some bs, 0⟩) none = ([], none)) ∧
    (∀ (o : Unit) (bs : Bytes) (cl : Int), cl ≠ 0 →
       bodyMiddleware.readResponse ⟨inp, encO, false, some o, dec, pool⟩
         (some ⟨some bs, cl⟩) none = ([Ev.decode], dec.decode bs)) ∧
    (∀ (b : bodyMiddleware) (k : Nat) (req : HRequest)
       (next : HRequest → Option HResponse × Option Err) (sbr : SetBodyResult) (e : Err)
       (cl : List Ev),
       b.setRequestBody k req = .ok sbr → sbr.err = none → sbr.cleanup = some cl →
       (b.readResponse (next sbr.req).1 (next sbr.req).2).2 = some e →
       ∃ res, b.RoundTrip k req next = .ok res ∧ res.resp = none ∧ res.err = some e) := by
  refine ⟨?_, ?_, ?_, ?_, ?_, ?_, ?_, ?_⟩
  · intro resp
    simp [bodyMiddleware.readResponse]
  · intro b resp e
    simp [bodyMiddleware.readResponse]
  · intro raw resp
    cases raw <;> simp [bodyMiddleware.readResponse]
  · intro raw
    cases raw <;> cases out <;> simp [bodyMiddleware.readResponse]
  · intro raw cl
    cases raw <;> cases out <;> simp [bodyMiddleware.readResponse]
  · intro raw bs
    cases raw <;> cases out <;> simp [bodyMiddleware.readResponse]
  · intro o bs cl h
    simp [bodyMiddleware.readResponse, h]
  · intro b k req next sbr e cl h1 h2 h3 h4
    simp only [bodyMiddleware.RoundTrip, h1, h2, h3]
    rcases hrr : b.readResponse (next sbr.req).1 (next sbr.req).2 with ⟨devs, derr⟩
    rw [hrr] at h4
    simp only at h4
    subst h4
    exact ⟨_, rfl, rfl, rfl⟩

/-- Claim C3, witness: with an output target, a failing decoder, a response
of nonzero content length and no transport error, the decoder runs and its
error becomes the failure of the exchange, with a nil response. -/
theorem c3_readResponse_witness :
    bodyMiddleware.readResponse ⟨none, none, false, some (), decBad, none⟩
        (some ⟨some [1], 5⟩) none = ([Ev.decode], some "bad") ∧
    ∃ res, bodyMiddleware.RoundTrip bmDecodeBad 0 req0 nextResp = .ok res ∧
      res.resp = none ∧ res.err = some "bad" := by
  have h := c3_readResponse_order none none (some ()) decBad none
  exact ⟨h.2.2.2.2.2.2.1 () [1] 5 (by decide),
         h.2.2.2.2.2.2.2 bmDecodeBad 0 req0 nextResp ⟨[], some [], ⟨0, some [], none⟩, none⟩
           "bad" [] rfl rfl rfl rfl⟩

/-- Claim C8 (confirmed): for every value the encoder accepts, the body
produced by RequestBodyEncoderObject (and, over a fresh buffer, by
RequestBodyEncoderObjectBuffer) reports content length equal to the number
of encoded bytes, sets the stream to exactly those bytes, and invokes the
encoder exactly once per materialization (the single encode event); every
invocation of the installed replay function yields the same bytes without
any further encoder invocation (the replay function performs no event at
all by construction, mirroring the source closure that only re-wraps the
already-encoded bytes). -/
theorem c8_encoder_once (input : InputVal) (enc : Encoder) (raw : Bytes) (k : Nat)
    (req : HRequest) (h : enc.encode input = .ok raw) :
    ∃ gb,
      (RequestBodyEncoderObject input enc).setRequestBody k req
        = .ok ([Ev.encode], { req with contentLength := (raw.length : Int), body := some raw,
                                       getBody := some gb }, none) ∧
      (RequestBodyEncoderObjectBuffer input enc []).setRequestBody k req
        = .ok ([Ev.encode], { req with contentLength := (raw.length : Int), body := some raw,
                                       getBody := some gb }, none) ∧
      ([Ev.encode] : List Ev).count Ev.encode = 1 ∧
      ∀ j, gb j = ((some raw : ReadCloser), (none : Option Err)) := by
  refine ⟨fun _ => ((some raw : ReadCloser), (none : Option Err)), ?_, ?_, by decide,
          fun _ => rfl⟩
  · simp only [RequestBody.setRequestBody, RequestBody.fn, RequestBodyEncoderObject,
      requestBodyFunc.setRequestBody, h]
  · simp only [RequestBody.setRequestBody, RequestBody.fn, RequestBodyEncoderObjectBuffer,
      requestBodyFunc.setRequestBody, h]
    simp

/-- Claim C8, witness: the constant encoder producing bytes 1, 2 yields
content length 2, body bytes 1, 2 and a replay function constantly
returning them, through both constructors. -/
theorem c8_encoder_once_witness :
    ∃ gb,
      (RequestBodyEncoderObject (.value "m") encConst12).setRequestBody 0 req0
        = .ok ([Ev.encode], { req0 with contentLength := (([1, 2] : Bytes).length : Int),
                                        body := some [1, 2], getBody := some gb }, none) ∧
      (RequestBodyEncoderObjectBuffer (.value "m") encConst12 []).setRequestBody 0 req0
        = .ok ([Ev.encode], { req0 with contentLength := (([1, 2] : Bytes).length : Int),
                                        body := some [1, 2], getBody := some gb }, none) ∧
      ([Ev.encode] : List Ev).count Ev.encode = 1 ∧
      ∀ j, gb j = ((some [1, 2] : ReadCloser), (none : Option Err)) :=
  c8_encoder_once (.value "m") encConst12 [1, 2] 0 req0 rfl

/-- Claim C9 (confirmed): requestBodyFunc.setRequestBody normalizes a nil
body returned with a nil error to http.NoBody (the non-nil empty reader)
with content length 0 and nil GetBody, whatever length and replay function
the body function returned; a non-nil error is returned with all three
request fields unmodified; and after any successful setRequestBody the
request body field is never nil. -/
theorem c9_setRequestBody_normalization (f : requestBodyFunc) (k : Nat) (req : HRequest)
    (evs : List Ev) (r : BodyFuncResult) :
    (f.fn k = .ok (evs, r) → r.err = none → r.body = none →
       f.setRequestBody k req
         = .ok (evs, { req with contentLength := 0, body := some [], getBody := none },
                none)) ∧
    (∀ e, f.fn k = .ok (evs, r) → r.err = some e →
       f.setRequestBody k req = .ok (evs, req, some e)) ∧
    (∀ evs2 req2, f.setRequestBody k req = .ok (evs2, req2, none) → req2.body ≠ none) := by
  refine ⟨?_, ?_, ?_⟩
  · intro h1 h2 h3
    simp only [requestBodyFunc.setRequestBody, h1, h2, h3]
  · intro e h1 h2
    simp only [requestBodyFunc.setRequestBody, h1, h2]
  · intro evs2 req2 h
    simp only [requestBodyFunc.setRequestBody] at h
    rcases hfk : f.fn k with ⟨evs3, r3⟩ | m
    · rw [hfk] at h
      simp only at h
      rcases herr : r3.err with _ | e
      · rw [herr] at h
        simp only at h
        rcases hbody : r3.body with _ | bs
        · rw [hbody] at h
          simp only [Outcome.ok.injEq, Prod.mk.injEq] at h
          obtain ⟨-, hreq, -⟩ := h
          rw [← hreq]
          simp
        · rw [hbody] at h
          simp only [Outcome.ok.injEq, Prod.mk.injEq] at h
          obtain ⟨-, hreq, -⟩ := h
          rw [← hreq]
          simp
      · rw [herr] at h
        simp at h
    · rw [hfk] at h
      simp at h

/-- Claim C9, witness: a body function returning a nil body with length 55
and a replay function is normalized to NoBody, length 0, nil GetBody; one
returning an error leaves a fresh request untouched; and the normalized
body field is not nil. -/
theorem c9_setRequestBody_normalization_witness :
    rbfNilBody.setRequestBody 0 req0
      = .ok ([], { req0 with contentLength := 0, body := some [], getBody := none }, none) ∧
    rbfErr.setRequestBody 0 req0 = .ok ([], req0, some "boom") ∧
    ({ req0 with contentLength := 0, body := some [], getBody := none } : HRequest).body
      ≠ none := by
  have h1 := (c9_setRequestBody_normalization rbfNilBody 0 req0 []
    ⟨55, none, some (fun _ => ((some [9] : ReadCloser), (none : Option Err))), none⟩).1
    rfl rfl rfl
  exact ⟨h1,
         (c9_setRequestBody_normalization rbfErr 0 req0 []
           ⟨-1, some [3], none, some "boom"⟩).2.1 "boom" rfl rfl,
         (c9_setRequestBody_normalization rbfNilBody 0 req0 []
           ⟨55, none, some (fun _ => ((some [9] : ReadCloser), (none : Option Err))),
            none⟩).2.2 [] _ h1⟩

/-- Claim C10 (confirmed): the middleware check noRetriesRequestBody is true
exactly when the encoder is nil, the input is non-nil and the input has
dynamic type noRetriesRequestBody; only RequestBodyStreamOnce produces that
wrapper, while the empty, in-memory, stream-with-replay and encoder-backed
bodies are all plain (reported retry-safe); and every successful
materialization of a RequestBodyStreamOnce body leaves the GetBody replay
function of the request nil. -/
theorem c10_noRetries_marker :
    (∀ b : bodyMiddleware, b.noRetriesRequestBody = true ↔
       b.requestEncoder = none ∧ ∃ f, b.requestInput = some (.body (.noRetries f))) ∧
    (∀ v, (RequestBodyStreamOnce v).isNoRetries = true) ∧
    (RequestBodyEmpty.isNoRetries = false) ∧
    (∀ cur, (RequestBodyInMemory cur).isNoRetries = false) ∧
    (∀ v, (RequestBodyStreamWithReplay v).isNoRetries = false) ∧
    (∀ i e, (RequestBodyEncoderObject i e).isNoRetries = false) ∧
    (∀ i e buf, (RequestBodyEncoderObjectBuffer i e buf).isNoRetries = false) ∧
    (∀ v k req evs req2,
       (RequestBodyStreamOnce v).setRequestBody k req = .ok (evs, req2, none) →
       req2.getBody = none) := by
  refine ⟨?_, fun _ => rfl, rfl, fun _ => rfl, fun _ => rfl, fun _ _ => rfl,
          fun _ _ _ => rfl, ?_⟩
  · intro b
    rcases b with ⟨ri, re, ro, out, dec, pool⟩
    rcases re with _ | e2
    · rcases ri with _ | iv
      · simp [bodyMiddleware.noRetriesRequestBody]
      · rcases iv with rb | tag
        · rcases rb with f | f
          · simp [bodyMiddleware.noRetriesRequestBody]
          · simp [bodyMiddleware.noRetriesRequestBody]
        · simp [bodyMiddleware.noRetriesRequestBody]
    · simp [bodyMiddleware.noRetriesRequestBody]
  · intro v k req evs req2 h
    simp only [RequestBodyStreamOnce, RequestBody.setRequestBody, RequestBody.fn,
      requestBodyFunc.setRequestBody] at h
    rcases v with _ | f | f | f | t
    · simp only [Outcome.ok.injEq, Prod.mk.injEq] at h
      obtain ⟨-, hreq, -⟩ := h
      rw [← hreq]
    · rcases f with _ | r
      · simp at h
      · rcases r with _ | bs <;>
          · simp only [Outcome.ok.injEq, Prod.mk.injEq] at h
            obtain ⟨-, hreq, -⟩ := h
            rw [← hreq]
    · rcases f with _ | re2
      · simp at h
      · rcases re2 with ⟨r, e⟩
        rcases e with _ | msg
        · rcases r with _ | bs <;>
            · simp only [Outcome.ok.injEq, Prod.mk.injEq] at h
              obtain ⟨-, hreq, -⟩ := h
              rw [← hreq]
        · simp at h
    · rcases f with _ | rle
      · simp at h
      · rcases rle with ⟨r, len, e⟩
        rcases e with _ | msg
        · rcases r with _ | bs <;>
            · simp only [Outcome.ok.injEq, Prod.mk.injEq] at h
              obtain ⟨-, hreq, -⟩ := h
              rw [← hreq]
        · simp at h
    · simp at h

/-- Claim C10, witness: materializing a RequestBodyStreamOnce body over a
factory that returns the single byte 104 leaves the GetBody field nil. -/
theorem c10_noRetries_marker_witness :
    ({ req0 with contentLength := -1, body := some [104], getBody := none } : HRequest).getBody
      = none :=
  c10_noRetries_marker.2.2.2.2.2.2.2 (box (.rc (some (some [104])))) 0 req0 []
    { req0 with contentLength := -1, body := some [104], getBody := none } rfl

end ConjureBody
